import Mathlib

/-!
Verification of the PV sizing core in `pv_calculator.py` (Aurumcalc).

Numbers are modelled as exact rationals (`ℚ`); Python `int(x)` truncation is
`pyInt`; `math.ceil` and floor division are `⌈·⌉` and `⌊·⌋`; values that may be
absent or non-numeric in a pandas row are `Option ℚ`.  Pandas
`groupby(...)["k"].idxmin()` picks, per group, the first row attaining the
minimal key, which is `argminFold` over the rows of the group in order;
`sort_values` ascending is modelled with `List.insertionSort`.
-/

set_option maxHeartbeats 1000000
set_option maxRecDepth 100000

namespace PV

attribute [local semireducible] Rat.mul Rat.inv Rat.add Rat.sub

/-- Python `int()` truncation toward zero on a rational. -/
def pyInt (q : ℚ) : ℤ := if 0 ≤ q then ⌊q⌋ else -⌊-q⌋

/-- One step of a running minimum that keeps the earlier element on ties
(the behaviour of `idxmin` / `if diff < best_diff` loops in the source). -/
def argminStep {α : Type} (key : α → ℚ) (best : Option α) (x : α) : Option α :=
  match best with
  | none => some x
  | some b => if key x < key b then some x else some b

/-- First element of `l` attaining the minimal `key`, or `none` when `l = []`. -/
def argminFold {α : Type} (key : α → ℚ) (l : List α) : Option α :=
  l.foldl (argminStep key) none

theorem argminFold_go_isSome {α : Type} (key : α → ℚ) (l : List α) (a : α) :
    (l.foldl (argminStep key) (some a)).isSome = true := by
  induction l generalizing a with
  | nil => rfl
  | cons x xs ih =>
    by_cases h : key x < key a
    · simpa [argminStep, h] using ih x
    · simpa [argminStep, h] using ih a

theorem argminFold_go_mem {α : Type} (key : α → ℚ) (l : List α) (a b : α)
    (h : l.foldl (argminStep key) (some a) = some b) : b = a ∨ b ∈ l := by
  induction l generalizing a with
  | nil => exact Or.inl (Option.some.inj h).symm
  | cons x xs ih =>
    by_cases hx : key x < key a
    · simp only [List.foldl_cons, argminStep, if_pos hx] at h
      rcases ih x h with h' | h'
      · exact Or.inr (by simp [h'])
      · exact Or.inr (by simp [h'])
    · simp only [List.foldl_cons, argminStep, if_neg hx] at h
      rcases ih a h with h' | h'
      · exact Or.inl h'
      · exact Or.inr (by simp [h'])

theorem argminFold_go_le {α : Type} (key : α → ℚ) (l : List α) (a b : α)
    (h : l.foldl (argminStep key) (some a) = some b) :
    key b ≤ key a ∧ ∀ x ∈ l, key b ≤ key x := by
  induction l generalizing a with
  | nil =>
    cases (Option.some.inj h)
    exact ⟨le_refl _, by intro x hx; cases hx⟩
  | cons x xs ih =>
    by_cases hx : key x < key a
    · simp only [List.foldl_cons, argminStep, if_pos hx] at h
      obtain ⟨h1, h2⟩ := ih x h
      refine ⟨le_of_lt (lt_of_le_of_lt h1 hx), ?_⟩
      intro y hy
      rcases List.mem_cons.mp hy with rfl | hy
      · exact h1
      · exact h2 y hy
    · simp only [List.foldl_cons, argminStep, if_neg hx] at h
      obtain ⟨h1, h2⟩ := ih a h
      refine ⟨h1, ?_⟩
      intro y hy
      rcases List.mem_cons.mp hy with rfl | hy
      · exact le_trans h1 (le_of_not_lt hx)
      · exact h2 y hy

theorem argminFold_mem {α : Type} (key : α → ℚ) (l : List α) (b : α)
    (h : argminFold key l = some b) : b ∈ l := by
  cases l with
  | nil => cases h
  | cons x xs =>
    have : xs.foldl (argminStep key) (some x) = some b := h
    rcases argminFold_go_mem key xs x b this with h' | h'
    · simp [h']
    · simp [h']

theorem argminFold_le {α : Type} (key : α → ℚ) (l : List α) (b : α)
    (h : argminFold key l = some b) : ∀ x ∈ l, key b ≤ key x := by
  cases l with
  | nil => cases h
  | cons x xs =>
    have : xs.foldl (argminStep key) (some x) = some b := h
    obtain ⟨h1, h2⟩ := argminFold_go_le key xs x b this
    intro y hy
    rcases List.mem_cons.mp hy with rfl | hy
    · exact h1
    · exact h2 y hy

theorem argminFold_isSome {α : Type} (key : α → ℚ) (l : List α) (hl : l ≠ []) :
    (argminFold key l).isSome = true := by
  cases l with
  | nil => exact absurd rfl hl
  | cons x xs => exact argminFold_go_isSome key xs x

/-! ## Data model

Rows of the two catalog sheets.  A field holds `none` when the cell is absent
or non-numeric (`_is_number` fails); otherwise `some` of its rational value. -/

/-- A row of the `paineis_solares` sheet (the fields the sizing core reads). -/
structure Painel where
  modelo : String
  fabricante : String
  potencia_maxima_nominal_pmax : Option ℚ
  tensao_circuito_aberto_voc : Option ℚ
  corrente_curto_circuito_isc : Option ℚ
  deriving DecidableEq, Repr

/-- A row of the `Inversores` sheet (the fields the sizing core reads). -/
structure Inversor where
  modelo : String
  fabricante : String
  maxima_potencia_nominal_ca : Option ℚ
  tensao_maxima_cc : Option ℚ
  tensao_start : Option ℚ
  corrente_maxima_entrada_por_mpp_tracker : Option ℚ
  numero_mpp_trackers : Option ℚ
  deriving DecidableEq, Repr

/-- A parsed PVWatts response body: `outputs.ac_annual` (absent when the key is
missing or not a number) and `outputs.ac_monthly` (absent when missing). -/
structure PVResp where
  ac_annual : Option ℚ
  ac_monthly : Option (List ℚ)
  deriving DecidableEq, Repr

/-- `_extrair_ac_monthly`: the monthly series, kept only when it is a 12-list. -/
def extrair_ac_monthly (d : PVResp) : Option (List ℚ) :=
  match d.ac_monthly with
  | some arr => if arr.length = 12 then some arr else none
  | none => none

/-- A row of the DataFrame built by `selecionar_inversores`. -/
structure CombInv where
  modelo : String
  fabricante : String
  maxima_potencia_nominal_ca : ℚ
  tensao_maxima_cc : Option ℚ
  tensao_start : Option ℚ
  corrente_maxima_entrada_por_mpp_tracker : Option ℚ
  numero_mpp_trackers : Option ℚ
  num_inversores : ℕ
  potencia_combinacao_ca : ℚ
  potencia_maxima_cc_suportada : ℚ
  diferenca_potencia_pico : ℚ
  deriving DecidableEq, Repr

/-- A row of the DataFrame built by `calcular_arranjos_possiveis`. -/
structure ArranjoSerie where
  modelo_painel : String
  fabricante_painel : String
  potencia_modulo : ℚ
  num_modulos_serie : ℕ
  tensao_total_voc : ℚ
  corrente_isc : ℚ
  deriving DecidableEq, Repr

/-- The dict built inside `selecionar_arranjo_paineis` (`best_local`). -/
structure ArranjoMPPT where
  modelo_painel : String
  fabricante_painel : String
  potencia_modulo : ℚ
  num_modulos_serie : ℕ
  num_conjuntos_paralelo : ℕ
  potencia_total_arranjo_mppt : ℚ
  corrente_total_isc : ℚ
  diferenca_potencia_mppt : ℚ
  deriving DecidableEq, Repr

/-- A row of the DataFrame built by `dimensionar_sistema`, including the
columns filled in afterwards by `realizar_dimensionamento_completo`. -/
structure SizingRow where
  inversor_modelo : String
  inversor_fabricante : String
  inversor_potencia_ca_nominal : ℚ
  inversor_num_unidades : ℕ
  inversor_num_mppt : ℕ
  painel_modelo : String
  painel_fabricante : String
  painel_potencia : ℚ
  arranjo_modulos_serie : ℕ
  arranjo_conjuntos_paralelo_por_mppt : ℕ
  arranjo_potencia_total_mppt_w : ℚ
  sistema_potencia_total_w : ℚ
  sistema_num_total_paineis : ℕ
  potencia_pico_necessaria_kw : Option ℚ
  consumo_anual_kwh : Option ℚ
  energia_gerada_anual_kwh : Option ℚ
  energia_mensal_kwh_array : Option (List ℚ)
  deriving DecidableEq, Repr

/-! ## Peak-Power Solver and realized-energy query

The PVWatts call is abstracted as an oracle `est : ℚ → Option PVResp` mapping
the requested `system_capacity` to the parsed response (`none` = unreachable /
malformed / explicit error list).  Each solver result is paired with the
number of oracle invocations performed, mirroring the control flow of
`calcular_potencia_pico_necessaria`: the guards on consumption and
coordinates return before the request is issued. -/

/-- `calcular_potencia_pico_necessaria`.  `consumo` is `none` when the Python
argument is `None`; `coordsOk` is the `_is_number(latitude and longitude)`
check.  Returns `(result, number of PVWatts calls)`. -/
def calcular_potencia_pico_necessaria (consumo : Option ℚ) (coordsOk : Bool)
    (est : ℚ → Option PVResp) : Option (ℚ × PVResp × Option (List ℚ)) × ℕ :=
  match consumo with
  | none => (none, 0)
  | some c =>
    if c ≤ 0 then (none, 0)
    else if !coordsOk then (none, 0)
    else
      let consumo_anual := c * 12
      match est 1 with
      | none => (none, 1)
      | some data =>
        match data.ac_annual with
        | none => (none, 1)
        | some ac_annual =>
          if ac_annual ≤ 0 then (none, 1)
          else (some (consumo_anual / ac_annual, data, extrair_ac_monthly data), 1)

/-- `calcular_energia_gerada`: annual energy and monthly series for a given
peak power (the `not potencia_pico_kw or potencia_pico_kw <= 0` guard is
`pot ≤ 0` on rationals). -/
def calcular_energia_gerada (pot : ℚ) (est : ℚ → Option PVResp) :
    Option ℚ × Option (List ℚ) :=
  if pot ≤ 0 then (none, none)
  else
    match est pot with
    | none => (none, none)
    | some data => (data.ac_annual, extrair_ac_monthly data)

/-! ## Inverter Selector -/

/-- The candidate rows appended for one inverter model: unit counts
`range(n_min, n_min + 3)` with `n_min = max(1, ceil(necessaria / pot_ca))`,
skipping models whose AC rating is absent or ≤ 0. -/
def candidatosInversor (potencia_pico_w : ℚ) (inv : Inversor) : List CombInv :=
  match inv.maxima_potencia_nominal_ca with
  | none => []
  | some pot_ca =>
    if pot_ca ≤ 0 then []
    else
      let necessaria := potencia_pico_w / (12/10)
      let n_min : ℕ := max 1 (Int.toNat ⌈necessaria / pot_ca⌉)
      (List.range 3).map (fun i =>
        let num := n_min + i
        let pot_comb_ca := (num : ℚ) * pot_ca
        let pot_max_cc := pot_comb_ca * (12/10)
        { modelo := inv.modelo
          fabricante := inv.fabricante
          maxima_potencia_nominal_ca := pot_ca
          tensao_maxima_cc := inv.tensao_maxima_cc
          tensao_start := inv.tensao_start
          corrente_maxima_entrada_por_mpp_tracker :=
            inv.corrente_maxima_entrada_por_mpp_tracker
          numero_mpp_trackers := inv.numero_mpp_trackers
          num_inversores := num
          potencia_combinacao_ca := pot_comb_ca
          potencia_maxima_cc_suportada := pot_max_cc
          diferenca_potencia_pico := |pot_max_cc - potencia_pico_w| })

/-- Comparison used to sort combinations ascending by deviation. -/
def devLE (a b : CombInv) : Prop :=
  a.diferenca_potencia_pico ≤ b.diferenca_potencia_pico

instance : DecidableRel devLE := fun a b =>
  inferInstanceAs (Decidable (a.diferenca_potencia_pico ≤ b.diferenca_potencia_pico))

instance : IsTotal CombInv devLE := ⟨fun _ _ => le_total _ _⟩

instance : IsTrans CombInv devLE := ⟨fun _ _ _ h1 h2 => le_trans h1 h2⟩

/-- The full candidate list `lst` accumulated over the catalog. -/
def candidatosTodos (potencia_pico_w : ℚ) (df_inversores : List Inversor) :
    List CombInv :=
  df_inversores.flatMap (candidatosInversor potencia_pico_w)

/-- `groupby("modelo")["diferenca_potencia_pico"].idxmin()` followed by
`df.loc[idx]`: the first minimal-deviation row of each model group. -/
def melhorPorModelo (lst : List CombInv) : List CombInv :=
  ((lst.map (·.modelo)).dedup).filterMap (fun m =>
    argminFold (·.diferenca_potencia_pico) (lst.filter (fun c => c.modelo == m)))

/-- `selecionar_inversores`: all candidate rows, reduced to the first
minimal-deviation row per model, then sorted ascending by deviation. -/
def selecionar_inversores (potencia_pico_w : ℚ) (df_inversores : List Inversor) :
    List CombInv :=
  if potencia_pico_w ≤ 0 ∨ df_inversores = [] then []
  else
    (melhorPorModelo (candidatosTodos potencia_pico_w df_inversores)).insertionSort devLE

/-! ## Array Composer -/

/-- The series options contributed by one panel row in
`calcular_arranjos_possiveis`: `n` from 1 to `max(1, tensao_max_cc // voc)`,
kept when `tensao_start ≤ n·voc ≤ tensao_max_cc`; panels with absent or
non-positive Voc/Isc/Pmax are skipped. -/
def arranjosDoPainel (tensao_max_cc tensao_start : ℚ) (m : Painel) :
    List ArranjoSerie :=
  match m.potencia_maxima_nominal_pmax, m.tensao_circuito_aberto_voc,
      m.corrente_curto_circuito_isc with
  | some pmod, some voc, some isc =>
    if 0 < voc ∧ 0 < isc ∧ 0 < pmod then
      let max_n_serie : ℕ := Int.toNat (max 1 ⌊tensao_max_cc / voc⌋)
      (List.range max_n_serie).filterMap (fun i =>
        let n : ℕ := i + 1
        let v_total := (n : ℚ) * voc
        if tensao_start ≤ v_total ∧ v_total ≤ tensao_max_cc then
          some { modelo_painel := m.modelo
                 fabricante_painel := m.fabricante
                 potencia_modulo := pmod
                 num_modulos_serie := n
                 tensao_total_voc := v_total
                 corrente_isc := isc }
        else none)
    else []
  | _, _, _ => []

/-- `calcular_arranjos_possiveis`; `none` voltage arguments are the
`_is_number` failures on `tensao_max_cc` / `tensao_start`. -/
def calcular_arranjos_possiveis (df_paineis : List Painel)
    (tensao_max_cc tensao_start : Option ℚ) : List ArranjoSerie :=
  match tensao_max_cc, tensao_start with
  | some tmax, some tstart =>
    if df_paineis = [] then []
    else df_paineis.flatMap (arranjosDoPainel tmax tstart)
  | _, _ => []

/-- The `ArranjoMPPT` row built for one series option and parallel count. -/
def mkArranjoMPPT (a : ArranjoSerie) (alvo p_serie isc : ℚ) (k : ℕ) :
    ArranjoMPPT :=
  { modelo_painel := a.modelo_painel
    fabricante_painel := a.fabricante_painel
    potencia_modulo := a.potencia_modulo
    num_modulos_serie := a.num_modulos_serie
    num_conjuntos_paralelo := k
    potencia_total_arranjo_mppt := p_serie * k
    corrente_total_isc := isc * k
    diferenca_potencia_mppt := |p_serie * k - alvo| }

/-- The inner loop of `selecionar_arranjo_paineis` for one series option:
parallel counts `k = 1 .. max_paralelos`, keeping rows accepted by the power
band and the current limit, reduced to the first minimal-deviation row
(`best_diff` updated on strict `<`). -/
def candidatoDoArranjo (alvo pmin pmax : ℚ) (corrente_max_mppt : Option ℚ)
    (a : ArranjoSerie) : Option ArranjoMPPT :=
  let p_serie := (a.num_modulos_serie : ℚ) * a.potencia_modulo
  if p_serie ≤ 0 then none
  else
    match corrente_max_mppt with
    | none => none
    | some i_max =>
      if 0 < i_max ∧ 0 < a.corrente_isc then
        let isc := a.corrente_isc
        let max_paralelos_por_corrente : ℤ := max 1 ⌊i_max / isc⌋
        let max_paralelos_por_pot : ℤ := max 1 ⌊pmax / p_serie⌋
        let max_paralelos : ℕ :=
          Int.toNat (max 1 (min max_paralelos_por_corrente max_paralelos_por_pot))
        argminFold (·.diferenca_potencia_mppt)
          (((List.range max_paralelos).map (· + 1)).filterMap (fun (k : ℕ) =>
            let p_tot := p_serie * (k : ℚ)
            let i_tot := isc * (k : ℚ)
            if pmin ≤ p_tot ∧ p_tot ≤ pmax ∧ i_tot ≤ i_max then
              some (mkArranjoMPPT a alvo p_serie isc k)
            else none))
      else none

/-- `selecionar_arranjo_paineis`: best arrangement for one inverter, target
split evenly over the (truncated) MPPT count, band `[0.9, 1.1] × alvo`,
global first minimum over the per-series candidates (`idxmin`). -/
def selecionar_arranjo_paineis (potencia_por_inversor_w : ℚ)
    (df_paineis : List Painel) (tensao_max_cc tensao_start : Option ℚ)
    (corrente_max_mppt : Option ℚ) (num_mppt : Option ℚ) : Option ArranjoMPPT :=
  match num_mppt with
  | none => none
  | some nm =>
    if 0 < potencia_por_inversor_w ∧ 0 < pyInt nm then
      let nmi : ℕ := Int.toNat (pyInt nm)
      let alvo_mppt_w := potencia_por_inversor_w / (nmi : ℚ)
      let pmin := alvo_mppt_w * (9/10)
      let pmax := alvo_mppt_w * (11/10)
      let poss := calcular_arranjos_possiveis df_paineis tensao_max_cc tensao_start
      if poss = [] then none
      else
        let candidatos := poss.filterMap
          (candidatoDoArranjo alvo_mppt_w pmin pmax corrente_max_mppt)
        if candidatos = [] then none
        else argminFold (·.diferenca_potencia_mppt) candidatos
    else none

/-! ## Orchestrators -/

/-- The truncated MPPT count used by `dimensionar_sistema`
(`int(c.get("numero_mpp_trackers", 1))`). -/
def numMpptDe (c : CombInv) : ℕ := Int.toNat (pyInt (c.numero_mpp_trackers.getD 1))

/-- One iteration of the loop in `dimensionar_sistema`: the sizing row for an
inverter combination, or `none` when the Array Composer finds nothing. -/
def rowDeCombinacao (potencia_pico_w : ℚ) (df_paineis : List Painel)
    (c : CombInv) : Option SizingRow :=
  let pot_por_inversor_w := potencia_pico_w / (c.num_inversores : ℚ)
  match selecionar_arranjo_paineis pot_por_inversor_w df_paineis
      c.tensao_maxima_cc c.tensao_start
      c.corrente_maxima_entrada_por_mpp_tracker c.numero_mpp_trackers with
  | none => none
  | some arr =>
    let num_mppt := numMpptDe c
    let num_inversores := c.num_inversores
    let pot_total_sistema :=
      arr.potencia_total_arranjo_mppt * (num_mppt : ℚ) * (num_inversores : ℚ)
    let total_paineis :=
      arr.num_modulos_serie * arr.num_conjuntos_paralelo * num_mppt * num_inversores
    some { inversor_modelo := c.modelo
           inversor_fabricante := c.fabricante
           inversor_potencia_ca_nominal := c.maxima_potencia_nominal_ca
           inversor_num_unidades := num_inversores
           inversor_num_mppt := num_mppt
           painel_modelo := arr.modelo_painel
           painel_fabricante := arr.fabricante_painel
           painel_potencia := arr.potencia_modulo
           arranjo_modulos_serie := arr.num_modulos_serie
           arranjo_conjuntos_paralelo_por_mppt := arr.num_conjuntos_paralelo
           arranjo_potencia_total_mppt_w := arr.potencia_total_arranjo_mppt
           sistema_potencia_total_w := pot_total_sistema
           sistema_num_total_paineis := total_paineis
           potencia_pico_necessaria_kw := none
           consumo_anual_kwh := none
           energia_gerada_anual_kwh := none
           energia_mensal_kwh_array := none }

/-- `dimensionar_sistema`: inverter selection followed by one Array Composer
call per retained combination, keeping the rows in the selector's order. -/
def dimensionar_sistema (potencia_pico_w : ℚ) (df_paineis : List Painel)
    (df_inversores : List Inversor) : Except String (List SizingRow) :=
  if selecionar_inversores potencia_pico_w df_inversores = [] then
    Except.error "Nenhuma combinação de inversores válida encontrada."
  else if (selecionar_inversores potencia_pico_w df_inversores).filterMap
      (rowDeCombinacao potencia_pico_w df_paineis) = [] then
    Except.error
      "Nenhum arranjo de painéis válido encontrado para as combinações de inversores."
  else
    Except.ok ((selecionar_inversores potencia_pico_w df_inversores).filterMap
      (rowDeCombinacao potencia_pico_w df_paineis))

/-- The monthly series chosen in step 5 of `realizar_dimensionamento_completo`:
the realized-capacity series when it is a 12-list, otherwise the 1 kW series
scaled by `kWp`, otherwise nothing. -/
def energiaMensalFinal (kWp : ℚ) (ac_monthly_1kw ac_monthly_dim : Option (List ℚ)) :
    Option (List ℚ) :=
  match ac_monthly_dim with
  | some l => if l.length = 12 then some l else none
  | none =>
    match ac_monthly_1kw with
    | some l => if l.length = 12 then some (l.map (· * kWp)) else none
    | none => none

/-- The column fill-in of step 5: peak power, annual consumption and annual
energy on every row; the monthly series only on the first row. -/
def preencherLinhas (kWp consumo_anual : ℚ) (energia_anual_kwh : Option ℚ)
    (energia_mensal : Option (List ℚ)) (rows : List SizingRow) : List SizingRow :=
  match rows.map (fun r =>
      { r with potencia_pico_necessaria_kw := some kWp
               consumo_anual_kwh := some consumo_anual
               energia_gerada_anual_kwh := energia_anual_kwh }) with
  | [] => []
  | r :: rest => { r with energia_mensal_kwh_array := energia_mensal } :: rest

/-- `realizar_dimensionamento_completo`: solver, catalog check, dimensioning,
final realized-energy query, column fill-in. -/
def realizar_dimensionamento_completo (consumo : Option ℚ) (coordsOk : Bool)
    (est : ℚ → Option PVResp) (df_paineis : List Painel)
    (df_inversores : List Inversor) : Except String (List SizingRow) :=
  match (calcular_potencia_pico_necessaria consumo coordsOk est).1 with
  | none =>
    Except.error
      "Falha ao calcular a potência de pico necessária via PVWatts. Verifique a chave da API, coordenadas ou a conectividade."
  | some (kWp, _, ac_monthly_1kw) =>
    if kWp = 0 then
      Except.error
        "Falha ao calcular a potência de pico necessária via PVWatts. Verifique a chave da API, coordenadas ou a conectividade."
    else if df_paineis = [] ∨ df_inversores = [] then
      Except.error
        "Falha ao carregar dados de painéis ou inversores. Verifique o arquivo de equipamentos."
    else
      let potencia_pico_w := kWp * 1000
      match dimensionar_sistema potencia_pico_w df_paineis df_inversores with
      | Except.error e => Except.error e
      | Except.ok rows =>
        if rows = [] then
          Except.error "Nenhum resultado de dimensionamento foi obtido."
        else
          let eg := calcular_energia_gerada kWp est
          Except.ok (preencherLinhas kWp ((consumo.getD 0) * 12) eg.1
            (energiaMensalFinal kWp ac_monthly_1kw eg.2) rows)

/-! ## Lemmas: Inverter Selector -/

theorem argmin_filter_modelo {lst : List CombInv} {m : String} {r : CombInv}
    (h : argminFold (·.diferenca_potencia_pico)
        (lst.filter (fun c => c.modelo == m)) = some r) : r.modelo = m := by
  have hmem := argminFold_mem _ _ _ h
  have := (List.mem_filter.mp hmem).2
  simpa using this

theorem mem_melhorPorModelo {lst : List CombInv} {r : CombInv}
    (hr : r ∈ melhorPorModelo lst) : r ∈ lst := by
  obtain ⟨m, _, hsome⟩ := List.mem_filterMap.mp hr
  exact (List.mem_filter.mp (argminFold_mem _ _ _ hsome)).1

theorem melhorPorModelo_min {lst : List CombInv} {r : CombInv}
    (hr : r ∈ melhorPorModelo lst) :
    ∀ c ∈ lst, c.modelo = r.modelo →
      r.diferenca_potencia_pico ≤ c.diferenca_potencia_pico := by
  obtain ⟨m, _, hsome⟩ := List.mem_filterMap.mp hr
  have hrm : r.modelo = m := argmin_filter_modelo hsome
  intro c hc hcm
  have hcf : c ∈ lst.filter (fun c => c.modelo == m) :=
    List.mem_filter.mpr ⟨hc, by simp [hcm, hrm]⟩
  exact argminFold_le _ _ _ hsome c hcf

theorem melhorPorModelo_models_mem (lst : List CombInv) (ms : List String)
    (r : CombInv)
    (hr : r ∈ ms.filterMap (fun m => argminFold (·.diferenca_potencia_pico)
        (lst.filter (fun c => c.modelo == m)))) : r.modelo ∈ ms := by
  obtain ⟨m, hm, hsome⟩ := List.mem_filterMap.mp hr
  rw [argmin_filter_modelo hsome]
  exact hm

theorem melhorPorModelo_models_nodup_aux (lst : List CombInv) (ms : List String)
    (h : ms.Nodup) :
    ((ms.filterMap (fun m => argminFold (·.diferenca_potencia_pico)
        (lst.filter (fun c => c.modelo == m)))).map (·.modelo)).Nodup := by
  induction ms with
  | nil => simp
  | cons m tl ih =>
    rw [List.filterMap_cons]
    have htl := ih (List.Nodup.of_cons h)
    cases hg : argminFold (·.diferenca_potencia_pico)
        (lst.filter (fun c => c.modelo == m)) with
    | none => exact htl
    | some r =>
      rw [List.map_cons, List.nodup_cons]
      refine ⟨?_, htl⟩
      intro hcontra
      obtain ⟨r', hr', hmod⟩ := List.mem_map.mp hcontra
      have h1 : r'.modelo ∈ tl := melhorPorModelo_models_mem lst tl r' hr'
      have h2 : r.modelo = m := argmin_filter_modelo hg
      rw [hmod, h2] at h1
      exact (List.nodup_cons.mp h).1 h1

theorem melhorPorModelo_models_nodup (lst : List CombInv) :
    ((melhorPorModelo lst).map (·.modelo)).Nodup :=
  melhorPorModelo_models_nodup_aux lst _ (List.nodup_dedup _)

theorem selecionar_inversores_models_nodup (p : ℚ) (dfi : List Inversor) :
    ((selecionar_inversores p dfi).map (·.modelo)).Nodup := by
  unfold selecionar_inversores
  split
  · simp
  · have hperm := List.perm_insertionSort devLE (melhorPorModelo (candidatosTodos p dfi))
    exact (hperm.map (·.modelo)).nodup_iff.mpr (melhorPorModelo_models_nodup _)

theorem selecionar_inversores_sorted (p : ℚ) (dfi : List Inversor) :
    List.Sorted devLE (selecionar_inversores p dfi) := by
  unfold selecionar_inversores
  split
  · simp
  · exact List.sorted_insertionSort devLE _

theorem mem_selecionar_inversores {p : ℚ} {dfi : List Inversor} {r : CombInv}
    (hr : r ∈ selecionar_inversores p dfi) : r ∈ candidatosTodos p dfi := by
  unfold selecionar_inversores at hr
  split at hr
  · cases hr
  · have hperm := List.perm_insertionSort devLE (melhorPorModelo (candidatosTodos p dfi))
    exact mem_melhorPorModelo (hperm.mem_iff.mp hr)

theorem selecionar_inversores_min_per_model {p : ℚ} {dfi : List Inversor}
    {r : CombInv} (hr : r ∈ selecionar_inversores p dfi) :
    ∀ c ∈ candidatosTodos p dfi, c.modelo = r.modelo →
      r.diferenca_potencia_pico ≤ c.diferenca_potencia_pico := by
  unfold selecionar_inversores at hr
  split at hr
  · cases hr
  · have hperm := List.perm_insertionSort devLE (melhorPorModelo (candidatosTodos p dfi))
    exact melhorPorModelo_min (hperm.mem_iff.mp hr)

theorem candidatosInversor_sup_ge {p : ℚ} {inv : Inversor} {r : CombInv}
    (hr : r ∈ candidatosInversor p inv) :
    p ≤ r.potencia_maxima_cc_suportada := by
  unfold candidatosInversor at hr
  split at hr
  · cases hr
  next pot_ca _ =>
    split at hr
    · cases hr
    next hpos =>
      push_neg at hpos
      obtain ⟨i, _, hrow⟩ := List.mem_map.mp hr
      have hsup : r.potencia_maxima_cc_suportada =
          ((max 1 (Int.toNat ⌈p / (12/10) / pot_ca⌉) + i : ℕ) : ℚ) * pot_ca * (12/10) := by
        rw [← hrow]
      rw [hsup]
      have h1 : p / (12/10) / pot_ca ≤ (⌈p / (12/10) / pot_ca⌉ : ℚ) := Int.le_ceil _
      have h2 : (⌈p / (12/10) / pot_ca⌉ : ℚ) ≤
          ((Int.toNat ⌈p / (12/10) / pot_ca⌉ : ℕ) : ℚ) := by
        exact_mod_cast Int.self_le_toNat _
      have h3 : ((Int.toNat ⌈p / (12/10) / pot_ca⌉ : ℕ) : ℚ) ≤
          ((max 1 (Int.toNat ⌈p / (12/10) / pot_ca⌉) + i : ℕ) : ℚ) := by
        have : Int.toNat ⌈p / (12/10) / pot_ca⌉ ≤
            max 1 (Int.toNat ⌈p / (12/10) / pot_ca⌉) + i :=
          le_trans (le_max_right _ _) (Nat.le_add_right _ _)
        exact_mod_cast this
      have h4 : p / (12/10) / pot_ca ≤
          ((max 1 (Int.toNat ⌈p / (12/10) / pot_ca⌉) + i : ℕ) : ℚ) := by linarith
      have h5 : p / (12/10) ≤
          ((max 1 (Int.toNat ⌈p / (12/10) / pot_ca⌉) + i : ℕ) : ℚ) * pot_ca :=
        (div_le_iff₀ hpos).mp h4
      have h6 : (0:ℚ) < 12/10 := by norm_num
      have h7 := (div_le_iff₀ h6).mp h5
      linarith

/-! ## Concrete catalog rows, oracles and rows used as evidence -/

/-- A 12-month series used by the concrete estimator oracles. -/
def mes12 : List ℚ := [100, 110, 120, 130, 90, 80, 70, 95, 105, 115, 125, 85]

/-- Inverter with a 10000 W AC rating (refutes the upper band bound of C1). -/
def invBig : Inversor :=
  { modelo := "BIG", fabricante := "F", maxima_potencia_nominal_ca := some 10000,
    tensao_maxima_cc := some 500, tensao_start := some 80,
    corrente_maxima_entrada_por_mpp_tracker := some 12,
    numero_mpp_trackers := some 1 }

/-- Inverter with a 1000 W AC rating, 1 MPPT. -/
def invA : Inversor :=
  { modelo := "A", fabricante := "F", maxima_potencia_nominal_ca := some 1000,
    tensao_maxima_cc := some 500, tensao_start := some 80,
    corrente_maxima_entrada_por_mpp_tracker := some 12,
    numero_mpp_trackers := some 1 }

/-- Inverter with a 500 W AC rating, 1 MPPT. -/
def invB : Inversor :=
  { modelo := "B", fabricante := "F", maxima_potencia_nominal_ca := some 500,
    tensao_maxima_cc := some 500, tensao_start := some 80,
    corrente_maxima_entrada_por_mpp_tracker := some 12,
    numero_mpp_trackers := some 1 }

/-- Inverter with a 2000 W AC rating, 1 MPPT. -/
def invD : Inversor :=
  { modelo := "D", fabricante := "F", maxima_potencia_nominal_ca := some 2000,
    tensao_maxima_cc := some 500, tensao_start := some 80,
    corrente_maxima_entrada_por_mpp_tracker := some 12,
    numero_mpp_trackers := some 1 }

/-- 100 W panel, Voc 40 V, Isc 10 A. -/
def panelC : Painel :=
  { modelo := "P100", fabricante := "F", potencia_maxima_nominal_pmax := some 100,
    tensao_circuito_aberto_voc := some 40, corrente_curto_circuito_isc := some 10 }

/-- 200 W panel, Voc 40 V, Isc 10 A. -/
def panelD : Painel :=
  { modelo := "P200", fabricante := "F", potencia_maxima_nominal_pmax := some 200,
    tensao_circuito_aberto_voc := some 40, corrente_curto_circuito_isc := some 10 }

/-- 400 W panel, Voc 40 V, Isc 10 A (Scenario A of the spec). -/
def panelA400 : Painel :=
  { modelo := "P400", fabricante := "F", potencia_maxima_nominal_pmax := some 400,
    tensao_circuito_aberto_voc := some 40, corrente_curto_circuito_isc := some 10 }

/-- Oracle answering every capacity with annual 1200 and the monthly series. -/
def estFull : ℚ → Option PVResp := fun _ => some ⟨some 1200, some mes12⟩

/-- Oracle reachable only at the 1 kW reference call. -/
def estSo1kW : ℚ → Option PVResp := fun cap =>
  if cap = 1 then some ⟨some 1200, some mes12⟩ else none

/-- Oracle whose realized-capacity answers carry no monthly series. -/
def estSemMensal : ℚ → Option PVResp := fun cap =>
  if cap = 1 then some ⟨some 1200, some mes12⟩ else some ⟨some 2300, none⟩

/-- Oracle for Scenario A: 1 kW yields 1500 kWh/yr. -/
def est1500 : ℚ → Option PVResp := fun cap =>
  if cap = 1 then some ⟨some 1500, some mes12⟩ else none

/-- Oracle reporting a zero annual yield. -/
def estZero : ℚ → Option PVResp := fun _ => some ⟨some 0, none⟩

/-! ## Claim C1 -/

/-- Claim C1 (amended): every inverter combination returned by
`selecionar_inversores` for a target peak DC power `T > 0` has supported DC
power `N × unit_ac_rating × 1.2` of at least `T` — in particular at least
`0.95 × T` — but no upper acceptance bound is enforced: the selector applies
no band filter, and the supported power can exceed `1.5 × T`. -/
theorem C1_selecionar_inversores_lower_band_only (T : ℚ) (dfi : List Inversor)
    (r : CombInv) (hT : 0 < T) (hr : r ∈ selecionar_inversores T dfi) :
    (95/100) * T ≤ r.potencia_maxima_cc_suportada ∧
    T ≤ r.potencia_maxima_cc_suportada := by
  have hm := mem_selecionar_inversores hr
  unfold candidatosTodos at hm
  obtain ⟨inv, _, hc⟩ := List.mem_flatMap.mp hm
  have h := candidatosInversor_sup_ge hc
  exact ⟨by linarith, h⟩

/-- Claim C1 witness: for target 1200 W and a single 1000 W inverter the
selector retains the one-unit combination, whose supported DC power 1200
satisfies the amended (lower) bound. -/
theorem C1_witness :
    (95/100) * (1200:ℚ) ≤
      (CombInv.mk "A" "F" 1000 (some 500) (some 80) (some 12) (some 1)
        1 1000 1200 0).potencia_maxima_cc_suportada ∧
    (1200:ℚ) ≤
      (CombInv.mk "A" "F" 1000 (some 500) (some 80) (some 12) (some 1)
        1 1000 1200 0).potencia_maxima_cc_suportada :=
  C1_selecionar_inversores_lower_band_only 1200 [invA]
    (CombInv.mk "A" "F" 1000 (some 500) (some 80) (some 12) (some 1)
      1 1000 1200 0)
    (by norm_num) (by decide)

/-- Claim C1 counterexample: for target 1000 W and a single 10000 W inverter
the selector returns exactly one combination, with supported DC power
12000 W — outside the band `[0.95 × 1000, 1.5 × 1000]`; the out-of-band
candidate is retained, so no band filter exists. -/
theorem C1_counterexample :
    (selecionar_inversores 1000 [invBig]).map (·.potencia_maxima_cc_suportada)
      = [12000] ∧ ¬ ((12000:ℚ) ≤ (3/2) * 1000) := by
  constructor
  · decide
  · norm_num

/-! ## Claims C3, C4, C5: Peak-Power Solver -/

theorem solver_eq_some {c y : ℚ} {d : PVResp} {est : ℚ → Option PVResp}
    (hc : 0 < c) (hest : est 1 = some d) (hann : d.ac_annual = some y)
    (hy : 0 < y) :
    (calcular_potencia_pico_necessaria (some c) true est).1 =
      some (c * 12 / y, d, extrair_ac_monthly d) := by
  simp [calcular_potencia_pico_necessaria, hest, hann, not_le.mpr hc, not_le.mpr hy]

/-- Claim C3: for consumption `c > 0` and a 1-unit estimator response with
annual yield `y > 0`, the solver returns exactly `(c × 12) / y`, along with
the raw response and its monthly series. -/
theorem C3_peak_power_formula (c y : ℚ) (d : PVResp) (est : ℚ → Option PVResp)
    (hc : 0 < c) (hest : est 1 = some d) (hann : d.ac_annual = some y)
    (hy : 0 < y) :
    (calcular_potencia_pico_necessaria (some c) true est).1 =
      some (c * 12 / y, d, extrair_ac_monthly d) :=
  solver_eq_some hc hest hann hy

/-- Claim C3 witness: consumption 300, yield 1500 gives `300 × 12 / 1500`. -/
theorem C3_witness :
    (calcular_potencia_pico_necessaria (some 300) true est1500).1 =
      some (300 * 12 / 1500, ⟨some 1500, some mes12⟩,
        extrair_ac_monthly ⟨some 1500, some mes12⟩) :=
  C3_peak_power_formula 300 1500 ⟨some 1500, some mes12⟩ est1500
    (by norm_num) (by decide) rfl (by norm_num)

/-- Claim C4: a missing or non-positive consumption is rejected before the
estimator is invoked — the solver returns no peak power and the number of
PVWatts calls is zero, whatever the oracle. -/
theorem C4_reject_before_call (consumo : Option ℚ) (coordsOk : Bool)
    (est : ℚ → Option PVResp)
    (h : consumo = none ∨ ∃ c, consumo = some c ∧ c ≤ 0) :
    calcular_potencia_pico_necessaria consumo coordsOk est = (none, 0) := by
  rcases h with rfl | ⟨c, rfl, hc⟩
  · rfl
  · simp [calcular_potencia_pico_necessaria, hc]

/-- Claim C4 witness: consumption −5 is rejected with zero estimator calls. -/
theorem C4_witness :
    calcular_potencia_pico_necessaria (some (-5)) true (fun _ => none) = (none, 0) :=
  C4_reject_before_call (some (-5)) true (fun _ => none)
    (Or.inr ⟨-5, rfl, by norm_num⟩)

/-- The estimator failure condition of §4.1: the 1-unit reference call is
unreachable, carries no annual figure, or reports a non-positive one. -/
def estimadorIndisponivel (est : ℚ → Option PVResp) : Prop :=
  est 1 = none ∨ ∃ d, est 1 = some d ∧
    (d.ac_annual = none ∨ ∃ y, d.ac_annual = some y ∧ y ≤ 0)

theorem solver_none_of_indisponivel (consumo : Option ℚ) (coordsOk : Bool)
    (est : ℚ → Option PVResp) (h : estimadorIndisponivel est) :
    (calcular_potencia_pico_necessaria consumo coordsOk est).1 = none := by
  cases consumo with
  | none => rfl
  | some c =>
    by_cases hc : c ≤ 0
    · simp [calcular_potencia_pico_necessaria, hc]
    · cases coordsOk with
      | false => simp [calcular_potencia_pico_necessaria, hc]
      | true =>
        rcases h with h1 | ⟨d, hd, h2⟩
        · simp [calcular_potencia_pico_necessaria, hc, h1]
        · rcases h2 with hann | ⟨y, hann, hy⟩
          · simp [calcular_potencia_pico_necessaria, hc, hd, hann]
          · simp [calcular_potencia_pico_necessaria, hc, hd, hann, hy]

/-- Claim C5: whenever the estimator is unreachable, returns no data or a
non-positive annual yield, the solver produces no peak power and the whole
dimensioning request terminates with the solver's error (no option table). -/
theorem C5_estimation_unavailable (consumo : Option ℚ) (coordsOk : Bool)
    (est : ℚ → Option PVResp) (dfp : List Painel) (dfi : List Inversor)
    (h : estimadorIndisponivel est) :
    (calcular_potencia_pico_necessaria consumo coordsOk est).1 = none ∧
    realizar_dimensionamento_completo consumo coordsOk est dfp dfi =
      Except.error
        "Falha ao calcular a potência de pico necessária via PVWatts. Verifique a chave da API, coordenadas ou a conectividade." := by
  have hsolver := solver_none_of_indisponivel consumo coordsOk est h
  refine ⟨hsolver, ?_⟩
  simp [realizar_dimensionamento_completo, hsolver]

/-- Claim C5 witness: a zero-yield oracle makes the whole request fail. -/
theorem C5_witness :
    (calcular_potencia_pico_necessaria (some 300) true estZero).1 = none ∧
    realizar_dimensionamento_completo (some 300) true estZero [panelC] [invA] =
      Except.error
        "Falha ao calcular a potência de pico necessária via PVWatts. Verifique a chave da API, coordenadas ou a conectividade." :=
  C5_estimation_unavailable (some 300) true estZero [panelC] [invA]
    (Or.inr ⟨⟨some 0, none⟩, rfl, Or.inr ⟨0, rfl, le_refl 0⟩⟩)

/-! ## Claims C8, C9: selector ranking and materialization -/

theorem dimensionar_ok_eq {p : ℚ} {dfp : List Painel} {dfi : List Inversor}
    {rows : List SizingRow} (h : dimensionar_sistema p dfp dfi = Except.ok rows) :
    rows = (selecionar_inversores p dfi).filterMap (rowDeCombinacao p dfp) := by
  unfold dimensionar_sistema at h
  split at h
  · cases h
  · split at h
    · cases h
    · exact (Except.ok.inj h).symm

/-- Claim C8: the selector keeps at most one combination per inverter model
(distinct model names), each retained row has minimal deviation among its
model's probed candidates, the returned list is sorted ascending by
deviation, and the orchestrator's table is exactly the in-order
materialization of that list (so the ranking carries over; the first row is
the closest option). -/
theorem C8_ranking_per_model (p : ℚ) (dfp : List Painel) (dfi : List Inversor) :
    ((selecionar_inversores p dfi).map (·.modelo)).Nodup ∧
    List.Sorted devLE (selecionar_inversores p dfi) ∧
    (∀ r ∈ selecionar_inversores p dfi, ∀ c ∈ candidatosTodos p dfi,
      c.modelo = r.modelo → r.diferenca_potencia_pico ≤ c.diferenca_potencia_pico) ∧
    (∀ rows, dimensionar_sistema p dfp dfi = Except.ok rows →
      rows = (selecionar_inversores p dfi).filterMap (rowDeCombinacao p dfp)) :=
  ⟨selecionar_inversores_models_nodup p dfi,
   selecionar_inversores_sorted p dfi,
   fun _ hr => selecionar_inversores_min_per_model hr,
   fun _ h => dimensionar_ok_eq h⟩

/-- The sizing row produced for inverter model "A" at a 1000 W target. -/
def rowA : SizingRow :=
  ⟨"A", "F", 1000, 1, 1, "P100", "F", 100, 10, 1, 1000, 1000, 10,
   none, none, none, none⟩

/-- The sizing row produced for inverter model "B" at a 1000 W target. -/
def rowB : SizingRow :=
  ⟨"B", "F", 500, 2, 1, "P100", "F", 100, 5, 1, 500, 1000, 10,
   none, none, none, none⟩

/-- Claim C8 witness: a two-model catalog at a 1000 W target gives distinct,
deviation-sorted rows and the orchestrator materializes them in order. -/
theorem C8_witness :
    ((selecionar_inversores 1000 [invA, invB]).map (·.modelo)).Nodup ∧
    List.Sorted devLE (selecionar_inversores 1000 [invA, invB]) ∧
    [rowA, rowB] =
      (selecionar_inversores 1000 [invA, invB]).filterMap
        (rowDeCombinacao 1000 [panelC]) := by
  have h := C8_ranking_per_model 1000 [panelC] [invA, invB]
  exact ⟨h.1, h.2.1, h.2.2.2 [rowA, rowB] (by rfl)⟩

/-- Claim C9: every row of the orchestrator's table comes from a retained
inverter combination `c`, via an Array Composer call at target
`total ÷ unit count`, and its totals replicate the per-MPPT arrangement
across all MPPTs and units: total power = per-MPPT power × MPPT count × unit
count, total panel count = series × parallel × MPPT count × unit count. -/
theorem C9_materializacao (p : ℚ) (dfp : List Painel) (dfi : List Inversor)
    (rows : List SizingRow) (h : dimensionar_sistema p dfp dfi = Except.ok rows) :
    ∀ r ∈ rows, ∃ c ∈ selecionar_inversores p dfi, ∃ arr : ArranjoMPPT,
      selecionar_arranjo_paineis (p / (c.num_inversores : ℚ)) dfp
        c.tensao_maxima_cc c.tensao_start
        c.corrente_maxima_entrada_por_mpp_tracker c.numero_mpp_trackers
        = some arr ∧
      r.inversor_num_unidades = c.num_inversores ∧
      r.inversor_num_mppt = numMpptDe c ∧
      r.arranjo_modulos_serie = arr.num_modulos_serie ∧
      r.arranjo_conjuntos_paralelo_por_mppt = arr.num_conjuntos_paralelo ∧
      r.arranjo_potencia_total_mppt_w = arr.potencia_total_arranjo_mppt ∧
      r.sistema_potencia_total_w =
        arr.potencia_total_arranjo_mppt * (numMpptDe c : ℚ) * (c.num_inversores : ℚ) ∧
      r.sistema_num_total_paineis =
        arr.num_modulos_serie * arr.num_conjuntos_paralelo * numMpptDe c
          * c.num_inversores := by
  intro r hr
  rw [dimensionar_ok_eq h] at hr
  obtain ⟨c, hc, hrow⟩ := List.mem_filterMap.mp hr
  refine ⟨c, hc, ?_⟩
  simp only [rowDeCombinacao] at hrow
  split at hrow
  · cases hrow
  next arr harr =>
    refine ⟨arr, harr, ?_⟩
    cases Option.some.inj hrow
    simp

/-- Claim C9 witness: the "A" row of the two-model run satisfies the
materialization equations. -/
theorem C9_witness :
    ∃ c ∈ selecionar_inversores 1000 [invA, invB], ∃ arr : ArranjoMPPT,
      selecionar_arranjo_paineis (1000 / (c.num_inversores : ℚ)) [panelC]
        c.tensao_maxima_cc c.tensao_start
        c.corrente_maxima_entrada_por_mpp_tracker c.numero_mpp_trackers
        = some arr ∧
      rowA.inversor_num_unidades = c.num_inversores ∧
      rowA.inversor_num_mppt = numMpptDe c ∧
      rowA.arranjo_modulos_serie = arr.num_modulos_serie ∧
      rowA.arranjo_conjuntos_paralelo_por_mppt = arr.num_conjuntos_paralelo ∧
      rowA.arranjo_potencia_total_mppt_w = arr.potencia_total_arranjo_mppt ∧
      rowA.sistema_potencia_total_w =
        arr.potencia_total_arranjo_mppt * (numMpptDe c : ℚ) * (c.num_inversores : ℚ) ∧
      rowA.sistema_num_total_paineis =
        arr.num_modulos_serie * arr.num_conjuntos_paralelo * numMpptDe c
          * c.num_inversores :=
  C9_materializacao 1000 [panelC] [invA, invB] [rowA, rowB] (by rfl)
    rowA (by decide)

/-! ## Lemmas: orchestrator fill-in -/

theorem extrair_ac_monthly_length {d : PVResp} {l : List ℚ}
    (h : extrair_ac_monthly d = some l) : l.length = 12 := by
  unfold extrair_ac_monthly at h
  split at h
  · split at h
    · cases Option.some.inj h
      assumption
    · cases h
  · cases h

theorem dimensionar_ok_ne_nil {p : ℚ} {dfp : List Painel} {dfi : List Inversor}
    {rs : List SizingRow} (h : dimensionar_sistema p dfp dfi = Except.ok rs) :
    rs ≠ [] := by
  unfold dimensionar_sistema at h
  split at h
  · cases h
  · split at h
    · cases h
    next hne =>
      cases Except.ok.inj h
      exact hne

theorem rowDeCombinacao_fields_none {p : ℚ} {dfp : List Painel} {c : CombInv}
    {r : SizingRow} (h : rowDeCombinacao p dfp c = some r) :
    r.energia_mensal_kwh_array = none ∧ r.energia_gerada_anual_kwh = none := by
  simp only [rowDeCombinacao] at h
  split at h
  · cases h
  · cases Option.some.inj h
    exact ⟨rfl, rfl⟩

theorem dimensionar_mensal_none {p : ℚ} {dfp : List Painel} {dfi : List Inversor}
    {rs : List SizingRow} (h : dimensionar_sistema p dfp dfi = Except.ok rs) :
    ∀ r ∈ rs, r.energia_mensal_kwh_array = none := by
  intro r hr
  rw [dimensionar_ok_eq h] at hr
  obtain ⟨c, _, hrow⟩ := List.mem_filterMap.mp hr
  exact (rowDeCombinacao_fields_none hrow).1

theorem preencherLinhas_cons (kWp ca : ℚ) (ea : Option ℚ) (em : Option (List ℚ))
    (r0 : SizingRow) (rest : List SizingRow) :
    preencherLinhas kWp ca ea em (r0 :: rest) =
      { r0 with potencia_pico_necessaria_kw := some kWp
                consumo_anual_kwh := some ca
                energia_gerada_anual_kwh := ea
                energia_mensal_kwh_array := em } ::
      rest.map (fun r =>
        { r with potencia_pico_necessaria_kw := some kWp
                 consumo_anual_kwh := some ca
                 energia_gerada_anual_kwh := ea }) := rfl

theorem preencherLinhas_mem {kWp ca : ℚ} {ea : Option ℚ} {em : Option (List ℚ)}
    {rows : List SizingRow} {r : SizingRow}
    (hr : r ∈ preencherLinhas kWp ca ea em rows) :
    r.potencia_pico_necessaria_kw = some kWp ∧ r.consumo_anual_kwh = some ca ∧
    r.energia_gerada_anual_kwh = ea := by
  cases rows with
  | nil => cases hr
  | cons r0 rest =>
    rw [preencherLinhas_cons] at hr
    rcases List.mem_cons.mp hr with rfl | hr
    · exact ⟨rfl, rfl, rfl⟩
    · obtain ⟨r', _, rfl⟩ := List.mem_map.mp hr
      exact ⟨rfl, rfl, rfl⟩

theorem preencherLinhas_tail_mensal {kWp ca : ℚ} {ea : Option ℚ}
    {em : Option (List ℚ)} {rows : List SizingRow}
    (hnone : ∀ r ∈ rows, r.energia_mensal_kwh_array = none) :
    ∀ r ∈ (preencherLinhas kWp ca ea em rows).tail,
      r.energia_mensal_kwh_array = none := by
  cases rows with
  | nil => intro r hr; cases hr
  | cons r0 rest =>
    rw [preencherLinhas_cons]
    intro r hr
    obtain ⟨r', hr', rfl⟩ := List.mem_map.mp hr
    exact hnone r' (List.mem_cons_of_mem r0 hr')

theorem preencherLinhas_head_mensal {kWp ca : ℚ} {ea : Option ℚ}
    {em : Option (List ℚ)} {rows : List SizingRow} (hrows : rows ≠ []) :
    (preencherLinhas kWp ca ea em rows).head?.map (·.energia_mensal_kwh_array) =
      some em := by
  cases rows with
  | nil => exact absurd rfl hrows
  | cons r0 rest => rw [preencherLinhas_cons]; rfl

theorem calcular_energia_gerada_some {pot : ℚ} {d2 : PVResp}
    {est : ℚ → Option PVResp} (hpot : 0 < pot) (h : est pot = some d2) :
    calcular_energia_gerada pot est = (d2.ac_annual, extrair_ac_monthly d2) := by
  simp [calcular_energia_gerada, not_le.mpr hpot, h]

theorem calcular_energia_gerada_none {pot : ℚ} {est : ℚ → Option PVResp}
    (h : est pot = none) :
    calcular_energia_gerada pot est = (none, none) := by
  unfold calcular_energia_gerada
  split
  · rfl
  · rw [h]

/-- Full reduction of `realizar_dimensionamento_completo` on a run where the
solver succeeds, the catalog is non-empty and the dimensioning succeeds. -/
theorem realizar_ok_eq {c y : ℚ} {d : PVResp} {est : ℚ → Option PVResp}
    {dfp : List Painel} {dfi : List Inversor} {rs : List SizingRow}
    (hc : 0 < c) (hest : est 1 = some d) (hann : d.ac_annual = some y)
    (hy : 0 < y) (hdfp : dfp ≠ []) (hdfi : dfi ≠ [])
    (hdim : dimensionar_sistema (c * 12 / y * 1000) dfp dfi = Except.ok rs) :
    realizar_dimensionamento_completo (some c) true est dfp dfi =
      Except.ok (preencherLinhas (c * 12 / y) (c * 12)
        (calcular_energia_gerada (c * 12 / y) est).1
        (energiaMensalFinal (c * 12 / y) (extrair_ac_monthly d)
          (calcular_energia_gerada (c * 12 / y) est).2) rs) := by
  have hkWp : ¬ (c * 12 / y = 0) := by positivity
  have hrs := dimensionar_ok_ne_nil hdim
  simp [realizar_dimensionamento_completo, solver_eq_some hc hest hann hy,
    hkWp, hdfp, hdfi, hdim, hrs]

theorem preencherLinhas_ne_nil {kWp ca : ℚ} {ea : Option ℚ}
    {em : Option (List ℚ)} {rows : List SizingRow} (h : rows ≠ []) :
    preencherLinhas kWp ca ea em rows ≠ [] := by
  cases rows with
  | nil => exact absurd rfl h
  | cons r0 rest => rw [preencherLinhas_cons]; exact List.cons_ne_nil _ _

/-! ## Claim C6 -/

/-- Claim C6 (amended): on a successful dimensioning run whose final
realized-capacity yield query succeeds, the orchestrator attaches the
realized annual energy, the original target annual consumption and the
required peak power to EVERY row of the table, but the 12-element monthly
breakdown is written only to the first row: every later row carries no
monthly series. -/
theorem C6_preenchimento_colunas (c y : ℚ) (d d2 : PVResp)
    (est : ℚ → Option PVResp) (dfp : List Painel) (dfi : List Inversor)
    (rows : List SizingRow)
    (hc : 0 < c) (hest : est 1 = some d) (hann : d.ac_annual = some y)
    (hy : 0 < y) (hest2 : est (c * 12 / y) = some d2)
    (hok : realizar_dimensionamento_completo (some c) true est dfp dfi =
      Except.ok rows) :
    rows ≠ [] ∧
    (∀ r ∈ rows, r.potencia_pico_necessaria_kw = some (c * 12 / y) ∧
      r.consumo_anual_kwh = some (c * 12) ∧
      r.energia_gerada_anual_kwh = d2.ac_annual) ∧
    (∀ r ∈ rows.tail, r.energia_mensal_kwh_array = none) := by
  have hsolver := solver_eq_some hc hest hann hy
  have hkpos : 0 < c * 12 / y := by positivity
  simp only [realizar_dimensionamento_completo] at hok
  split at hok
  next heq => rw [hsolver] at heq; cases heq
  next kWp dd acm heq =>
    rw [hsolver] at heq
    simp only [Option.some.injEq, Prod.mk.injEq] at heq
    obtain ⟨rfl, rfl, rfl⟩ := heq
    split at hok
    · cases hok
    · split at hok
      · cases hok
      · split at hok
        · cases hok
        next rs heq2 =>
          split at hok
          · cases hok
          next hrs =>
            cases Except.ok.inj hok
            rw [calcular_energia_gerada_some hkpos hest2]
            refine ⟨preencherLinhas_ne_nil hrs, ?_, ?_⟩
            · intro r hr
              exact preencherLinhas_mem hr
            · exact preencherLinhas_tail_mensal (dimensionar_mensal_none heq2)

/-- Claim C6 counterexample: a run with two sizing rows and a successful
final yield query carrying a 12-month series stores that series on the first
row only — the second row's monthly field is `none`, so the breakdown is not
attached to every row. -/
theorem C6_counterexample :
    (match realizar_dimensionamento_completo (some 100) true estFull
        [panelC] [invA, invB] with
     | Except.ok rows => rows.map (·.energia_mensal_kwh_array)
     | Except.error _ => []) = [some mes12, none] ∧
    estFull (100 * 12 / 1200) = some ⟨some 1200, some mes12⟩ ∧
    extrair_ac_monthly ⟨some 1200, some mes12⟩ = some mes12 := by
  exact ⟨by decide, by decide, by decide⟩

/-- `rowA` after the orchestrator's column fill-in (first row). -/
def rowAfull : SizingRow :=
  ⟨"A", "F", 1000, 1, 1, "P100", "F", 100, 10, 1, 1000, 1000, 10,
   some 1, some 1200, some 1200, some mes12⟩

/-- `rowB` after the orchestrator's column fill-in (second row). -/
def rowBfull : SizingRow :=
  ⟨"B", "F", 500, 2, 1, "P100", "F", 100, 5, 1, 500, 1000, 10,
   some 1, some 1200, some 1200, none⟩

/-- Claim C6 witness: the amended statement instantiated on the two-row run. -/
theorem C6_witness :
    ([rowAfull, rowBfull] : List SizingRow) ≠ [] ∧
    (∀ r ∈ ([rowAfull, rowBfull] : List SizingRow),
      r.potencia_pico_necessaria_kw = some (100 * 12 / 1200) ∧
      r.consumo_anual_kwh = some (100 * 12) ∧
      r.energia_gerada_anual_kwh = (PVResp.mk (some 1200) (some mes12)).ac_annual) ∧
    (∀ r ∈ ([rowAfull, rowBfull] : List SizingRow).tail,
      r.energia_mensal_kwh_array = none) :=
  C6_preenchimento_colunas 100 1200 ⟨some 1200, some mes12⟩
    ⟨some 1200, some mes12⟩ estFull [panelC] [invA, invB] [rowAfull, rowBfull]
    (by norm_num) (by decide) rfl (by norm_num) (by decide) (by rfl)

/-! ## Claim C7 -/

/-- Claim C7 (amended): when the final realized-yield query fails after a
sizing table is built, the orchestrator still returns the table successfully
(no overall error); the realized annual energy field is absent on every row;
the monthly field is absent on every row past the first, and the first row
carries the 1-unit monthly series scaled by the peak power whenever that
series is available (and nothing otherwise) — so the energy fields are not
all left absent when the 1-unit series exists. -/
theorem C7_falha_final_nao_fatal (c y : ℚ) (d : PVResp)
    (est : ℚ → Option PVResp) (dfp : List Painel) (dfi : List Inversor)
    (rs : List SizingRow)
    (hc : 0 < c) (hest : est 1 = some d) (hann : d.ac_annual = some y)
    (hy : 0 < y) (hest2 : est (c * 12 / y) = none)
    (hdfp : dfp ≠ []) (hdfi : dfi ≠ [])
    (hdim : dimensionar_sistema (c * 12 / y * 1000) dfp dfi = Except.ok rs) :
    ∃ rows, realizar_dimensionamento_completo (some c) true est dfp dfi =
        Except.ok rows ∧
      (∀ r ∈ rows, r.energia_gerada_anual_kwh = none) ∧
      (∀ r ∈ rows.tail, r.energia_mensal_kwh_array = none) ∧
      rows.head?.map (·.energia_mensal_kwh_array) =
        some (energiaMensalFinal (c * 12 / y) (extrair_ac_monthly d) none) := by
  have hok := realizar_ok_eq hc hest hann hy hdfp hdfi hdim
  rw [calcular_energia_gerada_none hest2] at hok
  refine ⟨_, hok, ?_, ?_, ?_⟩
  · intro r hr
    exact (preencherLinhas_mem hr).2.2
  · exact preencherLinhas_tail_mensal (dimensionar_mensal_none hdim)
  · exact preencherLinhas_head_mensal (dimensionar_ok_ne_nil hdim)

/-- Claim C7 counterexample: the final query fails (`none` at capacity 2) yet
the returned row's monthly energy field is NOT absent — it holds the 1-unit
series scaled by 2 — contradicting "the energy fields are left absent/null".
(The annual field is `none`, and the table is still returned.) -/
theorem C7_counterexample :
    (match realizar_dimensionamento_completo (some 200) true estSo1kW
        [panelD] [invD] with
     | Except.ok rows => rows.map (fun r =>
        (r.energia_gerada_anual_kwh, r.energia_mensal_kwh_array))
     | Except.error _ => []) = [(none, some (mes12.map (· * 2)))] ∧
    estSo1kW (200 * 12 / 1200) = none := by
  exact ⟨by decide, by decide⟩

/-- The sizing row produced for inverter model "D" at a 2000 W target. -/
def rowD : SizingRow :=
  ⟨"D", "F", 2000, 1, 1, "P200", "F", 200, 10, 1, 2000, 2000, 10,
   none, none, none, none⟩

/-- Claim C7 witness: the amended statement instantiated on the
one-inverter run whose final query fails. -/
theorem C7_witness :
    ∃ rows, realizar_dimensionamento_completo (some 200) true estSo1kW
        [panelD] [invD] = Except.ok rows ∧
      (∀ r ∈ rows, r.energia_gerada_anual_kwh = none) ∧
      (∀ r ∈ rows.tail, r.energia_mensal_kwh_array = none) ∧
      rows.head?.map (·.energia_mensal_kwh_array) =
        some (energiaMensalFinal (200 * 12 / 1200)
          (extrair_ac_monthly ⟨some 1200, some mes12⟩) none) :=
  C7_falha_final_nao_fatal 200 1200 ⟨some 1200, some mes12⟩ estSo1kW
    [panelD] [invD] [rowD] (by norm_num) (by decide) rfl (by norm_num)
    (by decide) (by decide) (by decide) (by rfl)

/-! ## Claim C10 -/

/-- Claim C10: when the realized-capacity query succeeds but returns no
12-element monthly series while the 1-unit reference did return one, the
orchestrator fills the monthly field with the 1-unit series scaled by the
required peak capacity, and this series is stored only on the first row —
every later row's monthly field is `none`. -/
theorem C10_fallback_escala (c y : ℚ) (d d2 : PVResp)
    (est : ℚ → Option PVResp) (dfp : List Painel) (dfi : List Inversor)
    (rs : List SizingRow) (l : List ℚ)
    (hc : 0 < c) (hest : est 1 = some d) (hann : d.ac_annual = some y)
    (hy : 0 < y) (hml : extrair_ac_monthly d = some l)
    (hest2 : est (c * 12 / y) = some d2) (hm2 : extrair_ac_monthly d2 = none)
    (hdfp : dfp ≠ []) (hdfi : dfi ≠ [])
    (hdim : dimensionar_sistema (c * 12 / y * 1000) dfp dfi = Except.ok rs) :
    ∃ rows, realizar_dimensionamento_completo (some c) true est dfp dfi =
        Except.ok rows ∧
      rows.head?.map (·.energia_mensal_kwh_array) =
        some (some (l.map (· * (c * 12 / y)))) ∧
      (∀ r ∈ rows.tail, r.energia_mensal_kwh_array = none) := by
  have hkpos : 0 < c * 12 / y := by positivity
  have hok := realizar_ok_eq hc hest hann hy hdfp hdfi hdim
  rw [calcular_energia_gerada_some hkpos hest2] at hok
  have hfinal : energiaMensalFinal (c * 12 / y) (extrair_ac_monthly d)
      (extrair_ac_monthly d2) = some (l.map (· * (c * 12 / y))) := by
    rw [hm2, hml]
    simp [energiaMensalFinal, extrair_ac_monthly_length hml]
  rw [hfinal] at hok
  refine ⟨_, hok, ?_, ?_⟩
  · exact preencherLinhas_head_mensal (dimensionar_ok_ne_nil hdim)
  · exact preencherLinhas_tail_mensal (dimensionar_mensal_none hdim)

/-- Claim C10 witness: the fallback instantiated on the run whose
realized-capacity answer has annual 2300 but no monthly series. -/
theorem C10_witness :
    ∃ rows, realizar_dimensionamento_completo (some 200) true estSemMensal
        [panelD] [invD] = Except.ok rows ∧
      rows.head?.map (·.energia_mensal_kwh_array) =
        some (some (mes12.map (· * (200 * 12 / 1200)))) ∧
      (∀ r ∈ rows.tail, r.energia_mensal_kwh_array = none) :=
  C10_fallback_escala 200 1200 ⟨some 1200, some mes12⟩ ⟨some 2300, none⟩
    estSemMensal [panelD] [invD] [rowD] mes12 (by norm_num) (by decide) rfl
    (by norm_num) (by decide) (by decide) (by decide) (by decide) (by decide)
    (by rfl)

/-! ## Lemmas: Array Composer -/

theorem mem_range_map_succ {n k : ℕ} :
    k ∈ (List.range n).map (· + 1) ↔ 1 ≤ k ∧ k ≤ n := by
  simp only [List.mem_map, List.mem_range]
  constructor
  · rintro ⟨i, hi, rfl⟩
    omega
  · rintro ⟨h1, h2⟩
    exact ⟨k - 1, by omega, by omega⟩

theorem arranjosDoPainel_sound {tmax tstart : ℚ} {m : Painel} {a : ArranjoSerie}
    (ha : a ∈ arranjosDoPainel tmax tstart m) :
    ∃ voc : ℚ,
      m.potencia_maxima_nominal_pmax = some a.potencia_modulo ∧
      m.tensao_circuito_aberto_voc = some voc ∧
      m.corrente_curto_circuito_isc = some a.corrente_isc ∧
      0 < voc ∧ 0 < a.corrente_isc ∧ 0 < a.potencia_modulo ∧
      a.modelo_painel = m.modelo ∧ a.fabricante_painel = m.fabricante ∧
      1 ≤ a.num_modulos_serie ∧
      a.tensao_total_voc = (a.num_modulos_serie : ℚ) * voc ∧
      tstart ≤ a.tensao_total_voc ∧ a.tensao_total_voc ≤ tmax := by
  unfold arranjosDoPainel at ha
  split at ha
  next pmod voc isc hpm hvm him =>
    split at ha
    next hpos =>
      obtain ⟨hvoc, hisc, hpmod⟩ := hpos
      obtain ⟨i, _, hsome⟩ := List.mem_filterMap.mp ha
      dsimp only at hsome
      split at hsome
      next hcond =>
        cases Option.some.inj hsome
        exact ⟨voc, hpm, hvm, him, hvoc, hisc, hpmod, rfl, rfl,
          Nat.le_add_left 1 i, rfl, hcond.1, hcond.2⟩
      · cases hsome
    · cases ha
  · cases ha

theorem arranjosDoPainel_complete {tmax tstart : ℚ} {m : Painel}
    {pmod voc isc : ℚ} (hp : m.potencia_maxima_nominal_pmax = some pmod)
    (hv : m.tensao_circuito_aberto_voc = some voc)
    (hi : m.corrente_curto_circuito_isc = some isc)
    (hvoc : 0 < voc) (hisc : 0 < isc) (hpmod : 0 < pmod)
    (S : ℕ) (hS : 1 ≤ S) (h1 : tstart ≤ (S : ℚ) * voc) (h2 : (S : ℚ) * voc ≤ tmax) :
    ({ modelo_painel := m.modelo, fabricante_painel := m.fabricante,
       potencia_modulo := pmod, num_modulos_serie := S,
       tensao_total_voc := (S : ℚ) * voc, corrente_isc := isc } : ArranjoSerie)
      ∈ arranjosDoPainel tmax tstart m := by
  unfold arranjosDoPainel
  rw [hp, hv, hi]
  dsimp only
  rw [if_pos ⟨hvoc, hisc, hpmod⟩]
  apply List.mem_filterMap.mpr
  have hfloor : (S : ℤ) ≤ ⌊tmax / voc⌋ := by
    apply Int.le_floor.mpr
    push_cast
    exact (le_div_iff₀ hvoc).mpr h2
  have hmax : (S : ℤ) ≤ max 1 ⌊tmax / voc⌋ := le_trans hfloor (le_max_right _ _)
  have hnn : (0 : ℤ) ≤ max 1 ⌊tmax / voc⌋ :=
    le_trans (by norm_num) (le_max_left _ _)
  have hSle : S ≤ Int.toNat (max 1 ⌊tmax / voc⌋) := (Int.le_toNat hnn).mpr hmax
  refine ⟨S - 1, List.mem_range.mpr (by omega), ?_⟩
  have hn : S - 1 + 1 = S := by omega
  simp only [hn, if_pos (And.intro h1 h2)]

theorem mem_calcular_arranjos {dfp : List Painel} {tmax tstart : ℚ}
    {a : ArranjoSerie} :
    a ∈ calcular_arranjos_possiveis dfp (some tmax) (some tstart) ↔
      ∃ m ∈ dfp, a ∈ arranjosDoPainel tmax tstart m := by
  show a ∈ (if dfp = [] then [] else dfp.flatMap (arranjosDoPainel tmax tstart)) ↔ _
  split
  next h => subst h; simp
  · exact List.mem_flatMap

theorem k_le_maxPar {i_max pmax ps isc : ℚ} (hps : 0 < ps) (hisc : 0 < isc)
    {k : ℕ} (h2 : ps * k ≤ pmax) (h3 : isc * k ≤ i_max) :
    k ≤ Int.toNat (max 1 (min (max 1 ⌊i_max / isc⌋) (max 1 ⌊pmax / ps⌋))) := by
  have hk1 : (k : ℤ) ≤ ⌊i_max / isc⌋ := by
    apply Int.le_floor.mpr
    push_cast
    exact (le_div_iff₀ hisc).mpr (by linarith [h3])
  have hk2 : (k : ℤ) ≤ ⌊pmax / ps⌋ := by
    apply Int.le_floor.mpr
    push_cast
    exact (le_div_iff₀ hps).mpr (by linarith [h2])
  have hmin : (k : ℤ) ≤ min (max 1 ⌊i_max / isc⌋) (max 1 ⌊pmax / ps⌋) :=
    le_min (le_trans hk1 (le_max_right _ _)) (le_trans hk2 (le_max_right _ _))
  have hnn : (0 : ℤ) ≤ max 1 (min (max 1 ⌊i_max / isc⌋) (max 1 ⌊pmax / ps⌋)) :=
    le_trans (by norm_num) (le_max_left _ _)
  exact (Int.le_toNat hnn).mpr (le_trans hmin (le_max_right _ _))

theorem candidatoDoArranjo_sound {alvo pmin pmax i_max : ℚ} {a : ArranjoSerie}
    {arr : ArranjoMPPT}
    (h : candidatoDoArranjo alvo pmin pmax (some i_max) a = some arr) :
    ∃ k : ℕ, 1 ≤ k ∧
      arr = mkArranjoMPPT a alvo ((a.num_modulos_serie : ℚ) * a.potencia_modulo)
        a.corrente_isc k ∧
      pmin ≤ (a.num_modulos_serie : ℚ) * a.potencia_modulo * k ∧
      (a.num_modulos_serie : ℚ) * a.potencia_modulo * k ≤ pmax ∧
      a.corrente_isc * k ≤ i_max ∧
      ∀ k' : ℕ, 1 ≤ k' →
        pmin ≤ (a.num_modulos_serie : ℚ) * a.potencia_modulo * k' →
        (a.num_modulos_serie : ℚ) * a.potencia_modulo * k' ≤ pmax →
        a.corrente_isc * k' ≤ i_max →
        arr.diferenca_potencia_mppt ≤
          |(a.num_modulos_serie : ℚ) * a.potencia_modulo * k' - alvo| := by
  unfold candidatoDoArranjo at h
  dsimp only at h
  split at h
  · cases h
  next hps0 =>
    split at h
    next hguard =>
      obtain ⟨himax, hisc⟩ := hguard
      have hps : 0 < (a.num_modulos_serie : ℚ) * a.potencia_modulo :=
        lt_of_not_le hps0
      have hmem := argminFold_mem _ _ _ h
      obtain ⟨k, hkmem, hsome⟩ := List.mem_filterMap.mp hmem
      obtain ⟨hk1, _⟩ := mem_range_map_succ.mp hkmem
      split at hsome
      next hcond =>
        obtain ⟨hc1, hc2, hc3⟩ := hcond
        cases Option.some.inj hsome
        refine ⟨k, hk1, rfl, hc1, hc2, hc3, ?_⟩
        intro k' hk' h1' h2' h3'
        have hk'le := k_le_maxPar hps hisc h2' h3'
        have hmem' : mkArranjoMPPT a alvo
            ((a.num_modulos_serie : ℚ) * a.potencia_modulo) a.corrente_isc k' ∈
            ((List.range (Int.toNat (max 1 (min (max 1 ⌊i_max / a.corrente_isc⌋)
              (max 1 ⌊pmax / ((a.num_modulos_serie : ℚ) * a.potencia_modulo)⌋))))).map
                (· + 1)).filterMap
              (fun (k : ℕ) =>
                if pmin ≤ (a.num_modulos_serie : ℚ) * a.potencia_modulo * (k : ℚ) ∧
                    (a.num_modulos_serie : ℚ) * a.potencia_modulo * (k : ℚ) ≤ pmax ∧
                    a.corrente_isc * (k : ℚ) ≤ i_max then
                  some (mkArranjoMPPT a alvo
                    ((a.num_modulos_serie : ℚ) * a.potencia_modulo) a.corrente_isc k)
                else none) := by
          apply List.mem_filterMap.mpr
          exact ⟨k', mem_range_map_succ.mpr ⟨hk', hk'le⟩,
            by rw [if_pos ⟨h1', h2', h3'⟩]⟩
        exact argminFold_le _ _ _ h _ hmem'
      · cases hsome
    · cases h

theorem candidatoDoArranjo_isSome {alvo pmin pmax i_max : ℚ} {a : ArranjoSerie}
    (hps : 0 < (a.num_modulos_serie : ℚ) * a.potencia_modulo)
    (himax : 0 < i_max) (hisc : 0 < a.corrente_isc)
    {k : ℕ} (hk : 1 ≤ k)
    (h1 : pmin ≤ (a.num_modulos_serie : ℚ) * a.potencia_modulo * k)
    (h2 : (a.num_modulos_serie : ℚ) * a.potencia_modulo * k ≤ pmax)
    (h3 : a.corrente_isc * k ≤ i_max) :
    ∃ c, candidatoDoArranjo alvo pmin pmax (some i_max) a = some c := by
  unfold candidatoDoArranjo
  dsimp only
  rw [if_neg (not_le.mpr hps), if_pos ⟨himax, hisc⟩]
  have hmem : mkArranjoMPPT a alvo
      ((a.num_modulos_serie : ℚ) * a.potencia_modulo) a.corrente_isc k ∈
      ((List.range (Int.toNat (max 1 (min (max 1 ⌊i_max / a.corrente_isc⌋)
        (max 1 ⌊pmax / ((a.num_modulos_serie : ℚ) * a.potencia_modulo)⌋))))).map
          (· + 1)).filterMap
        (fun (k : ℕ) =>
          if pmin ≤ (a.num_modulos_serie : ℚ) * a.potencia_modulo * (k : ℚ) ∧
              (a.num_modulos_serie : ℚ) * a.potencia_modulo * (k : ℚ) ≤ pmax ∧
              a.corrente_isc * (k : ℚ) ≤ i_max then
            some (mkArranjoMPPT a alvo
              ((a.num_modulos_serie : ℚ) * a.potencia_modulo) a.corrente_isc k)
          else none) := by
    apply List.mem_filterMap.mpr
    exact ⟨k, mem_range_map_succ.mpr ⟨hk, k_le_maxPar hps hisc h2 h3⟩,
      by rw [if_pos ⟨h1, h2, h3⟩]⟩
  have hne : (((List.range (Int.toNat (max 1 (min (max 1 ⌊i_max / a.corrente_isc⌋)
      (max 1 ⌊pmax / ((a.num_modulos_serie : ℚ) * a.potencia_modulo)⌋))))).map
        (· + 1)).filterMap
      (fun (k : ℕ) =>
        if pmin ≤ (a.num_modulos_serie : ℚ) * a.potencia_modulo * (k : ℚ) ∧
            (a.num_modulos_serie : ℚ) * a.potencia_modulo * (k : ℚ) ≤ pmax ∧
            a.corrente_isc * (k : ℚ) ≤ i_max then
          some (mkArranjoMPPT a alvo
            ((a.num_modulos_serie : ℚ) * a.potencia_modulo) a.corrente_isc k)
        else none)) ≠ [] :=
    List.ne_nil_of_mem hmem
  obtain ⟨c, hc⟩ := Option.isSome_iff_exists.mp (argminFold_isSome _ _ hne)
  exact ⟨c, hc⟩

/-! ## Claim C2 -/

/-- Claim C2: every arrangement returned by the Array Composer satisfies the
voltage-window, current and ±10% power-band constraints (with the per-MPPT
target `t = pot / int(num_mppt)`), its total power is `S × P × Pmodule`, its
recorded deviation is `|power − t|`, and it minimises that deviation over all
(panel model, S, P) triples of the catalog (with positive ratings, as
enumerated by the composer) that satisfy the same constraints. -/
theorem C2_selecionar_arranjo (pot : ℚ) (dfp : List Painel)
    (tmax tstart i_max nm : ℚ) (arr : ArranjoMPPT)
    (h : selecionar_arranjo_paineis pot dfp (some tmax) (some tstart)
      (some i_max) (some nm) = some arr) :
    (∃ m ∈ dfp, ∃ voc isc : ℚ,
      m.modelo = arr.modelo_painel ∧
      m.potencia_maxima_nominal_pmax = some arr.potencia_modulo ∧
      m.tensao_circuito_aberto_voc = some voc ∧
      m.corrente_curto_circuito_isc = some isc ∧
      tstart ≤ (arr.num_modulos_serie : ℚ) * voc ∧
      (arr.num_modulos_serie : ℚ) * voc ≤ tmax ∧
      (arr.num_conjuntos_paralelo : ℚ) * isc ≤ i_max) ∧
    arr.potencia_total_arranjo_mppt =
      (arr.num_modulos_serie : ℚ) * arr.num_conjuntos_paralelo * arr.potencia_modulo ∧
    pot / ((Int.toNat (pyInt nm)) : ℚ) * (9/10) ≤ arr.potencia_total_arranjo_mppt ∧
    arr.potencia_total_arranjo_mppt ≤ pot / ((Int.toNat (pyInt nm)) : ℚ) * (11/10) ∧
    arr.diferenca_potencia_mppt =
      |arr.potencia_total_arranjo_mppt - pot / ((Int.toNat (pyInt nm)) : ℚ)| ∧
    (∀ m' ∈ dfp, ∀ voc' isc' pmod' : ℚ,
      m'.tensao_circuito_aberto_voc = some voc' →
      m'.corrente_curto_circuito_isc = some isc' →
      m'.potencia_maxima_nominal_pmax = some pmod' →
      0 < voc' → 0 < isc' → 0 < pmod' →
      ∀ S P : ℕ, 1 ≤ S → 1 ≤ P →
        tstart ≤ (S : ℚ) * voc' → (S : ℚ) * voc' ≤ tmax →
        (P : ℚ) * isc' ≤ i_max →
        pot / ((Int.toNat (pyInt nm)) : ℚ) * (9/10) ≤ (S : ℚ) * P * pmod' →
        (S : ℚ) * P * pmod' ≤ pot / ((Int.toNat (pyInt nm)) : ℚ) * (11/10) →
        arr.diferenca_potencia_mppt ≤
          |(S : ℚ) * P * pmod' - pot / ((Int.toNat (pyInt nm)) : ℚ)|) := by
  unfold selecionar_arranjo_paineis at h
  dsimp only at h
  split at h
  case isFalse => cases h
  case isTrue hguard =>
    split at h
    · cases h
    next =>
      split at h
      · cases h
      next =>
        have hmem := argminFold_mem _ _ _ h
        obtain ⟨a, hapos, hca⟩ := List.mem_filterMap.mp hmem
        obtain ⟨m, hm, hma⟩ := mem_calcular_arranjos.mp hapos
        obtain ⟨voc, hpm, hvm, him, hvoc, hisc, hpmod, hmod, _, hn1, hvt, hv1, hv2⟩ :=
          arranjosDoPainel_sound hma
        obtain ⟨k, hk1, harr, hc1, hc2, hc3, _⟩ := candidatoDoArranjo_sound hca
        subst harr
        refine ⟨⟨m, hm, voc, a.corrente_isc, hmod.symm, hpm, hvm, him, ?_, ?_, ?_⟩,
          by dsimp only [mkArranjoMPPT]; ring, hc1, hc2, rfl, ?_⟩
        · show tstart ≤ (a.num_modulos_serie : ℚ) * voc
          rw [← hvt]; exact hv1
        · show (a.num_modulos_serie : ℚ) * voc ≤ tmax
          rw [← hvt]; exact hv2
        · show (k : ℚ) * a.corrente_isc ≤ i_max
          linarith [hc3, mul_comm (a.corrente_isc) (k : ℚ)]
        · intro m' hm' voc' isc' pmod' hv' hi' hp' hvoc' hisc' hpmod' S P hS hP
            hb1 hb2 hb3 hb4 hb5
          have hSpos : (0:ℚ) < (S : ℚ) := by exact_mod_cast hS
          have hPpos : (0:ℚ) < (P : ℚ) := by exact_mod_cast hP
          have hA : (⟨m'.modelo, m'.fabricante, pmod', S, (S : ℚ) * voc', isc'⟩ :
              ArranjoSerie) ∈
              calcular_arranjos_possiveis dfp (some tmax) (some tstart) :=
            mem_calcular_arranjos.mpr ⟨m', hm',
              arranjosDoPainel_complete hp' hv' hi' hvoc' hisc' hpmod' S hS hb1 hb2⟩
          have himax : 0 < i_max := by nlinarith
          have hacc1 : pot / ((Int.toNat (pyInt nm)) : ℚ) * (9/10) ≤
              (S : ℚ) * pmod' * (P : ℚ) := by nlinarith [hb4]
          have hacc2 : (S : ℚ) * pmod' * (P : ℚ) ≤
              pot / ((Int.toNat (pyInt nm)) : ℚ) * (11/10) := by nlinarith [hb5]
          have hacc3 : isc' * (P : ℚ) ≤ i_max := by
            linarith [hb3, mul_comm (P : ℚ) isc']
          obtain ⟨c, hc⟩ := candidatoDoArranjo_isSome
            (a := (⟨m'.modelo, m'.fabricante, pmod', S, (S : ℚ) * voc', isc'⟩ :
              ArranjoSerie))
            (by dsimp only; positivity) himax hisc' hP hacc1 hacc2 hacc3
          have hcmem := List.mem_filterMap.mpr ⟨_, hA, hc⟩
          have hle := argminFold_le _ _ _ h _ hcmem
          obtain ⟨k0, _, _, _, _, _, hminloc⟩ := candidatoDoArranjo_sound hc
          have hcd : c.diferenca_potencia_mppt ≤
              |(S : ℚ) * pmod' * (P : ℚ) - pot / ((Int.toNat (pyInt nm)) : ℚ)| :=
            hminloc P hP hacc1 hacc2 hacc3
          have habs : |(S : ℚ) * pmod' * (P : ℚ) -
                pot / ((Int.toNat (pyInt nm)) : ℚ)| =
              |(S : ℚ) * (P : ℚ) * pmod' - pot / ((Int.toNat (pyInt nm)) : ℚ)| := by
            have he : (S : ℚ) * pmod' * (P : ℚ) -
                pot / ((Int.toNat (pyInt nm)) : ℚ) =
                (S : ℚ) * (P : ℚ) * pmod' -
                pot / ((Int.toNat (pyInt nm)) : ℚ) := by ring
            rw [he]
          rw [habs] at hcd
          exact le_trans hle hcd

/-- The arrangement returned for Scenario A of the spec: series 3, parallel 1,
exactly 1200 W per MPPT. -/
def arrScenA : ArranjoMPPT := ⟨"P400", "F", 400, 3, 1, 1200, 10, 0⟩

/-- Claim C2 witness: Scenario A (2400 W over 2 MPPTs, one 400 W panel with
Voc 40 V and Isc 10 A, window 80–500 V, 12 A per MPPT) instantiating the
constraint and band conclusions at the returned arrangement. -/
theorem C2_witness :
    (∃ m ∈ [panelA400], ∃ voc isc : ℚ,
      m.modelo = arrScenA.modelo_painel ∧
      m.potencia_maxima_nominal_pmax = some arrScenA.potencia_modulo ∧
      m.tensao_circuito_aberto_voc = some voc ∧
      m.corrente_curto_circuito_isc = some isc ∧
      (80:ℚ) ≤ (arrScenA.num_modulos_serie : ℚ) * voc ∧
      (arrScenA.num_modulos_serie : ℚ) * voc ≤ 500 ∧
      (arrScenA.num_conjuntos_paralelo : ℚ) * isc ≤ 12) ∧
    arrScenA.potencia_total_arranjo_mppt =
      (arrScenA.num_modulos_serie : ℚ) * arrScenA.num_conjuntos_paralelo *
        arrScenA.potencia_modulo ∧
    (2400:ℚ) / ((Int.toNat (pyInt 2)) : ℚ) * (9/10) ≤
      arrScenA.potencia_total_arranjo_mppt ∧
    arrScenA.potencia_total_arranjo_mppt ≤
      (2400:ℚ) / ((Int.toNat (pyInt 2)) : ℚ) * (11/10) ∧
    arrScenA.diferenca_potencia_mppt =
      |arrScenA.potencia_total_arranjo_mppt -
        (2400:ℚ) / ((Int.toNat (pyInt 2)) : ℚ)| := by
  have h := C2_selecionar_arranjo 2400 [panelA400] 500 80 12 2 arrScenA (by decide)
  exact ⟨h.1, h.2.1, h.2.2.1, h.2.2.2.1, h.2.2.2.2.1⟩

end PV
